import Mathlib

/-!
# UrbanDrive: social-validation state machine and gamification engine

A shallow embedding of the core of the UrbanDrive repository:

* `traffic-service/app/models.py` — the `Incidente` / `ValidacionIncidente`
  data model and its enums;
* `traffic-service/app/main.py` — the `validar_reporte` and
  `reportar_incidente` endpoints;
* `traffic-service/app/services.py` — `clasificar_severidad`;
* `traffic-service/app/rabbitmq_producer.py` — `publish_event`;
* `gamification-service/app/rabbitmq_consumer.py` — exchange/queue topology
  and the `on_message` dispatcher;
* `gamification-service/app/gamification_logic.py` — reward and badge logic;
* `gamification-service/app/redis_client.py` — the per-user counter store.

The relational store is modelled as lists of rows, the Redis store as
association lists, and the endpoints as pure state-passing functions.
Exceptional control flow (HTTPException, swallowed publish failures) is
modelled with explicit outcome types and a boolean publish-success input.
-/

/-- Enum `SeveridadEnum` from `traffic-service/app/models.py`. -/
inductive SeveridadEnum where
  | baja
  | media
  | alta
  | critica
deriving Repr, DecidableEq

/-- The string value of each severity member (`str, enum.Enum`). -/
def SeveridadEnum.value : SeveridadEnum → String
  | .baja => "baja"
  | .media => "media"
  | .alta => "alta"
  | .critica => "critica"

/-- Enum `EstadoIncidenteEnum` from `traffic-service/app/models.py`. -/
inductive EstadoIncidenteEnum where
  | pendiente
  | validado
  | verificado
  | archivado
deriving Repr, DecidableEq

/-- The string value of each state member. -/
def EstadoIncidenteEnum.value : EstadoIncidenteEnum → String
  | .pendiente => "pendiente"
  | .validado => "validado"
  | .verificado => "verificado"
  | .archivado => "archivado"

/-- A row of the `incidentes_trafico` table (`Incidente` in `models.py`);
timestamps are omitted, they never influence the control flow. -/
structure Incidente where
  id : Nat
  tipo : String
  descripcion : String
  latitud : Int
  longitud : Int
  severidad : SeveridadEnum
  estado : EstadoIncidenteEnum
  usuario_id : Nat
  validaciones_count : Nat
deriving Repr, DecidableEq

/-- A row of the `validaciones_incidentes` table (`ValidacionIncidente`). -/
structure ValidacionIncidente where
  incidente_id : Nat
  usuario_id : Nat
deriving Repr, DecidableEq

/-- The traffic-service relational store: both tables. -/
structure TrafficDB where
  incidentes : List Incidente
  validaciones : List ValidacionIncidente
deriving Repr, DecidableEq

/-- Model of `db.query(Incidente).filter(Incidente.id == reporte_id).first()`. -/
def TrafficDB.findIncidente (db : TrafficDB) (reporte_id : Nat) : Option Incidente :=
  db.incidentes.find? (fun i => i.id == reporte_id)

/-- Model of `db.query(ValidacionIncidente).filter(incidente_id == reporte_id,
usuario_id == usuario_id).first()` — as a Boolean existence check. -/
def TrafficDB.hasValidacion (db : TrafficDB) (reporte_id usuario_id : Nat) : Bool :=
  (db.validaciones.find?
    (fun v => v.incidente_id == reporte_id && v.usuario_id == usuario_id)).isSome

/-- A JSON-like value in a flat or one-level-nested event payload. -/
inductive JVal where
  | nat (n : Nat)
  | str (s : String)
  | obj (fields : List (String × JVal))
deriving Repr

/-- Lookup modelling `dict.get` on a decoded JSON object. -/
def jget (fields : List (String × JVal)) (key : String) : Option JVal :=
  (fields.find? (fun p => p.1 == key)).map (·.2)

namespace RabbitMQProducer

/-- Constant `RabbitMQProducer.EXCHANGE_NAME` in `rabbitmq_producer.py`. -/
def EXCHANGE_NAME : String := "urban_drive_events"

end RabbitMQProducer

/-- The message built and published by `RabbitMQProducer.publish_event`. -/
structure PublishedMessage where
  exchange : String
  payload : List (String × JVal)
  routing_key : String
  persistent : Bool
deriving Repr

/-- Model of `RabbitMQProducer.publish_event` (`rabbitmq_producer.py`): serializes the
event to a flat payload `{"event_type": .., "user_id": .., "puntos_base": ..,
**extra_data}`, uses `event_type` as the routing key when none is given, and
marks the message persistent.  The callers in `main.py` never pass an
explicit `routing_key`. -/
def publish_event (event_type : String) (user_id : Nat) (puntos_base : Nat)
    (extra_data : List (String × JVal)) : PublishedMessage :=
  { exchange := RabbitMQProducer.EXCHANGE_NAME
    payload := ("event_type", JVal.str event_type) :: ("user_id", JVal.nat user_id) ::
      ("puntos_base", JVal.nat puntos_base) :: extra_data
    routing_key := event_type
    persistent := true }

/-- The `ValidacionResponse` schema returned by `validar_reporte`. -/
structure ValidacionResponse where
  incidente_id : Nat
  usuario_id : Nat
  validaciones_count : Nat
  estado : EstadoIncidenteEnum
  verificado : Bool
  mensaje : String
deriving Repr, DecidableEq

/-- Outcome of a `validar_reporte` call: one of the three raised
`HTTPException`s, or the 200 response. -/
inductive ValidarOutcome where
  | notFound
  | selfValidation
  | duplicate
  | ok (resp : ValidacionResponse)
deriving Repr, DecidableEq

/-- The HTTP status code of each outcome, as set in `main.py`. -/
def ValidarOutcome.statusCode : ValidarOutcome → Nat
  | .notFound => 404
  | .selfValidation => 400
  | .duplicate => 400
  | .ok _ => 200

/-- Predicate true exactly on the `HTTPException` outcomes. -/
def ValidarOutcome.isError : ValidarOutcome → Bool
  | .ok _ => false
  | _ => true

/-- Result of a `validar_reporte` call: the committed store, the HTTP
outcome, and the messages that reached the broker. -/
structure ValidarResult where
  db : TrafficDB
  outcome : ValidarOutcome
  events : List PublishedMessage
deriving Repr

/-- The transactional mutation committed by a successful, not-yet-verified
`validar_reporte` call: the new `ValidacionIncidente` row is inserted and
the (unique, by primary key) incident row with the given id gets the new
counter value and state. -/
def mutateDB (db : TrafficDB) (reporte_id usuario_id newCount : Nat)
    (newEstado : EstadoIncidenteEnum) : TrafficDB :=
  { incidentes := db.incidentes.map
      (fun i => if i.id == reporte_id then
        { i with validaciones_count := newCount, estado := newEstado } else i)
    validaciones := db.validaciones ++
      [{ incidente_id := reporte_id, usuario_id := usuario_id }] }

/-- Endpoint `POST /reportes/{reporte_id}/validar` (`validar_reporte` in
`traffic-service/app/main.py`).

The checks appear in source order: existence (404), self-validation (400),
duplicate validation (400), already-verified short-circuit (200, no
mutation); then the mutation: insert the `ValidacionIncidente` row,
increment `validaciones_count`, and when the counter reaches 3 set the state
to `verificado` and call `publish_event` with the owner's id and 50 base
points.  A raised `HTTPException` triggers `db.rollback()`, so the error
outcomes leave the store unchanged.  The `try/except` around the publish
swallows any failure, so the commit does not depend on it: `publishOk`
only decides whether the message reaches the broker. -/
def validar_reporte (db : TrafficDB) (reporte_id : Nat) (usuario_id : Nat)
    (publishOk : Bool) : ValidarResult :=
  match db.findIncidente reporte_id with
  | none => { db := db, outcome := .notFound, events := [] }
  | some incidente =>
    if incidente.usuario_id = usuario_id then
      { db := db, outcome := .selfValidation, events := [] }
    else if db.hasValidacion reporte_id usuario_id then
      { db := db, outcome := .duplicate, events := [] }
    else if incidente.estado = EstadoIncidenteEnum.verificado then
      { db := db
        outcome := .ok
          { incidente_id := incidente.id
            usuario_id := usuario_id
            validaciones_count := incidente.validaciones_count
            estado := incidente.estado
            verificado := true
            mensaje := "El reporte ya está verificado con " ++
              toString incidente.validaciones_count ++ " validaciones" }
        events := [] }
    else
      let newCount := incidente.validaciones_count + 1
      let verificado := decide (newCount ≥ 3)
      let newEstado :=
        if newCount ≥ 3 then EstadoIncidenteEnum.verificado else incidente.estado
      let incidente' :=
        { incidente with validaciones_count := newCount, estado := newEstado }
      let db' := mutateDB db reporte_id usuario_id newCount newEstado
      let events :=
        if newCount ≥ 3 && publishOk then
          [publish_event "reporte_verificado" incidente.usuario_id 50
            [("incidente_id", JVal.nat incidente.id),
             ("validaciones_count", JVal.nat newCount),
             ("tipo_incidente", JVal.str incidente.tipo),
             ("severidad", JVal.str incidente.severidad.value)]]
        else []
      let mensaje :=
        if verificado then
          "Reporte verificado con " ++ toString newCount ++ " validaciones"
        else
          "Validación registrada. Total: " ++ toString newCount ++ "/3"
      { db := db'
        outcome := .ok
          { incidente_id := incidente'.id
            usuario_id := usuario_id
            validaciones_count := incidente'.validaciones_count
            estado := incidente'.estado
            verificado := verificado
            mensaje := mensaje }
        events := events }

/-- The timeout (seconds) passed to `httpx.AsyncClient` in
`clasificar_severidad` (`traffic-service/app/services.py`). -/
def oracle_timeout_seconds : Nat := 10

/-- The observable behaviour of one call to the ai-service severity oracle,
as distinguished by the `except` clauses of `clasificar_severidad`. -/
inductive OracleOutcome where
  | ok (severidad : SeveridadEnum)
  | timeoutError
  | httpStatusError
  | requestError
  | otherError
deriving Repr, DecidableEq

/-- Predicate true on every branch of `clasificar_severidad` other than a
successful classification. -/
def OracleOutcome.isFailure : OracleOutcome → Bool
  | .ok _ => false
  | _ => true

/-- Model of `clasificar_severidad` (`traffic-service/app/services.py`): returns the
oracle's severity on success; every `except` clause (`TimeoutException`,
`HTTPStatusError`, `RequestError`, bare `Exception`) returns
`SeveridadEnum.MEDIA` instead of propagating the failure. -/
def clasificar_severidad (oracle : OracleOutcome) : SeveridadEnum :=
  match oracle with
  | .ok severidad => severidad
  | .timeoutError => SeveridadEnum.media
  | .httpStatusError => SeveridadEnum.media
  | .requestError => SeveridadEnum.media
  | .otherError => SeveridadEnum.media

/-- The `IncidenteCreate` request schema of `POST /reportar`. -/
structure IncidenteCreate where
  tipo : String
  descripcion : String
  latitud : Int
  longitud : Int
  usuario_id : Nat
deriving Repr, DecidableEq

/-- The relational store's autoincrement primary key for `incidentes_trafico`. -/
def TrafficDB.nextId (db : TrafficDB) : Nat :=
  db.incidentes.foldr (fun i m => max i.id m) 0 + 1

/-- Result of a `reportar_incidente` call: the committed store, the 201
response row, and the messages that reached the broker. -/
structure ReportarResult where
  db : TrafficDB
  created : Incidente
  events : List PublishedMessage
deriving Repr

/-- Endpoint `POST /reportar` (`reportar_incidente` in `traffic-service/app/main.py`):
classifies the severity through `clasificar_severidad` (which never raises),
inserts the incident with state `pendiente` and counter 0, commits, then
attempts to publish a `reporte_creado` event with 10 base points inside a
`try/except` that only logs a failure — `publishOk` decides whether the
message reaches the broker, never whether the row commits. -/
def reportar_incidente (db : TrafficDB) (incidente : IncidenteCreate)
    (oracle : OracleOutcome) (publishOk : Bool) : ReportarResult :=
  let severidad := clasificar_severidad oracle
  let db_incidente : Incidente :=
    { id := db.nextId
      tipo := incidente.tipo
      descripcion := incidente.descripcion
      latitud := incidente.latitud
      longitud := incidente.longitud
      severidad := severidad
      estado := EstadoIncidenteEnum.pendiente
      usuario_id := incidente.usuario_id
      validaciones_count := 0 }
  let db' : TrafficDB :=
    { incidentes := db.incidentes ++ [db_incidente], validaciones := db.validaciones }
  let events :=
    if publishOk then
      [publish_event "reporte_creado" incidente.usuario_id 10
        [("incidente_id", JVal.nat db_incidente.id),
         ("tipo_incidente", JVal.str incidente.tipo),
         ("severidad", JVal.str severidad.value)]]
    else []
  { db := db', created := db_incidente, events := events }

/-- Update-or-insert on an association list, used to model Redis `INCRBY`
and `ZADD` on a single key/member. -/
def alistSet (l : List (Nat × Nat)) (key value : Nat) : List (Nat × Nat) :=
  match l with
  | [] => [(key, value)]
  | (k, v) :: rest =>
    if k = key then (k, value) :: rest else (k, v) :: alistSet rest key value

/-- Lookup with a missing-key default, modelling Redis `GET` returning `nil`
mapped to 0 by the client (`int(value) if value is not None else 0`). -/
def alistGet (l : List (Nat × Nat)) (key : Nat) : Nat :=
  match l.find? (fun p => p.1 = key) with
  | some p => p.2
  | none => 0

/-- The Redis keyspace used by `RedisGamificationClient`
(`gamification-service/app/redis_client.py`): `user:{id}:xp`,
`user:{id}:coins`, `user:{id}:badges` and the `leaderboard:xp` sorted set. -/
structure RedisState where
  xp : List (Nat × Nat)
  coins : List (Nat × Nat)
  badges : List (Nat × List String)
  leaderboard : List (Nat × Nat)
deriving Repr

/-- The initial Redis state: no key exists. -/
def RedisState.empty : RedisState :=
  { xp := [], coins := [], badges := [], leaderboard := [] }

namespace RedisGamificationClient

/-- Model of `get_xp`: `GET user:{id}:xp`, 0 when the key is absent. -/
def get_xp (s : RedisState) (user_id : Nat) : Nat :=
  alistGet s.xp user_id

/-- Model of `add_xp`: `INCRBY user:{id}:xp` followed by
`ZADD leaderboard:xp {user_id: total}`; returns the new total. -/
def add_xp (s : RedisState) (user_id : Nat) (xp : Nat) : RedisState × Nat :=
  let total := alistGet s.xp user_id + xp
  ({ s with
      xp := alistSet s.xp user_id total
      leaderboard := alistSet s.leaderboard user_id total }, total)

/-- Model of `get_coins`: `GET user:{id}:coins`, 0 when the key is absent. -/
def get_coins (s : RedisState) (user_id : Nat) : Nat :=
  alistGet s.coins user_id

/-- Model of `add_coins`: `INCRBY user:{id}:coins`; returns the new total. -/
def add_coins (s : RedisState) (user_id : Nat) (coins : Nat) : RedisState × Nat :=
  let total := alistGet s.coins user_id + coins
  ({ s with coins := alistSet s.coins user_id total }, total)

/-- Model of `get_badges`: `SMEMBERS user:{id}:badges`, empty when the key is absent. -/
def get_badges (s : RedisState) (user_id : Nat) : List String :=
  match s.badges.find? (fun p => p.1 = user_id) with
  | some p => p.2
  | none => []

/-- Redis `SADD` on one set value. -/
def sadd (l : List String) (x : String) : List String :=
  if l.contains x then l else l ++ [x]

/-- Redis `SADD` on the keyspace: update the one set stored under the key,
creating the key when absent. -/
def saddAlist (l : List (Nat × List String)) (user_id : Nat) (badge : String) :
    List (Nat × List String) :=
  match l with
  | [] => [(user_id, sadd [] badge)]
  | (k, v) :: rest =>
    if k = user_id then (k, sadd v badge) :: rest
    else (k, v) :: saddAlist rest user_id badge

/-- Model of `add_badge`: `SADD user:{id}:badges badge`. -/
def add_badge (s : RedisState) (user_id : Nat) (badge : String) : RedisState :=
  { s with badges := saddAlist s.badges user_id badge }

/-- One entry of the `/leaderboard` response. -/
structure LeaderboardEntry where
  rank : Nat
  user_id : Nat
  xp : Nat
deriving Repr, DecidableEq

/-- Descending insertion by score into an already-descending list — the
order in which Redis keeps `leaderboard:xp` and `ZREVRANGE` reads it out
(highest score first). -/
def insertDescByScore (p : Nat × Nat) : List (Nat × Nat) → List (Nat × Nat)
  | [] => [p]
  | q :: rest =>
    if q.2 ≤ p.2 then p :: q :: rest else q :: insertDescByScore p rest

/-- The member/score pairs of the sorted set, highest score first. -/
def sortDescByScore : List (Nat × Nat) → List (Nat × Nat)
  | [] => []
  | p :: rest => insertDescByScore p (sortDescByScore rest)

/-- Model of `ZREVRANGE leaderboard:xp 0 (limit-1) WITHSCORES` for `limit ≥ 1`:
the first `limit` member/score pairs in descending score order. -/
def zrevrange_top (s : RedisState) (limit : Nat) : List (Nat × Nat) :=
  (sortDescByScore s.leaderboard).take limit

/-- Model of `enumerate(results, start=1)` mapped into rank-carrying entries. -/
def rankFrom (start : Nat) : List (Nat × Nat) → List LeaderboardEntry
  | [] => []
  | (u, x) :: rest => { rank := start, user_id := u, xp := x } :: rankFrom (start + 1) rest

/-- Model of `get_leaderboard` (`redis_client.py`): `ZREVRANGE` over the sorted set,
then 1-based enumeration into `{rank, user_id, xp}` entries. -/
def get_leaderboard (s : RedisState) (limit : Nat) : List LeaderboardEntry :=
  rankFrom 1 (zrevrange_top s limit)

/-- The `/profile/{user_id}` payload. -/
structure UserProfile where
  user_id : Nat
  xp : Nat
  coins : Nat
  level : Nat
  badges : List String
deriving Repr, DecidableEq

/-- Model of `get_user_profile` (`redis_client.py`): reads xp, coins and badges and
derives `level = int(sqrt(xp / 100)) + 1` (on naturals,
`Nat.sqrt (xp / 100) + 1` computes the same floor). -/
def get_user_profile (s : RedisState) (user_id : Nat) : UserProfile :=
  { user_id := user_id
    xp := get_xp s user_id
    coins := get_coins s user_id
    level := Nat.sqrt (get_xp s user_id / 100) + 1
    badges := get_badges s user_id }

end RedisGamificationClient

namespace GamificationService

/-- Constant `GamificationService.XP_PER_VALID_REPORT`. -/
def XP_PER_VALID_REPORT : Nat := 10

/-- Constant `GamificationService.COINS_PER_VALID_REPORT`. -/
def COINS_PER_VALID_REPORT : Nat := 5

/-- Threshold table `GamificationService.BADGE_THRESHOLDS`
(`gamification-service/app/gamification_logic.py`). -/
def BADGE_THRESHOLDS : List (Nat × String) :=
  [(100, "Explorador Urbano"),
   (250, "Guardián de la Ciudad"),
   (500, "Héroe del Tráfico"),
   (1000, "Leyenda Urbana")]

/-- The loop body of `_check_and_assign_badges`: walk the threshold table,
and for each `(threshold, badge_name)` with `total_xp >= threshold` and
`badge_name not in existing_badges` (the snapshot taken before the loop),
`SADD` the badge and append it to the returned `new_badges` list. -/
def check_badges_loop (user_id : Nat) (existing : List String) (total_xp : Nat) :
    List (Nat × String) → RedisState → RedisState × List String
  | [], s => (s, [])
  | (threshold, badge_name) :: rest, s =>
    if threshold ≤ total_xp ∧ badge_name ∉ existing then
      let s' := RedisGamificationClient.add_badge s user_id badge_name
      let res := check_badges_loop user_id existing total_xp rest s'
      (res.1, badge_name :: res.2)
    else check_badges_loop user_id existing total_xp rest s

/-- Model of `_check_and_assign_badges` (`gamification_logic.py`): snapshot the user's
badge set, then run the threshold loop over `BADGE_THRESHOLDS`. -/
def check_and_assign_badges (s : RedisState) (user_id : Nat) (total_xp : Nat) :
    RedisState × List String :=
  check_badges_loop user_id (RedisGamificationClient.get_badges s user_id) total_xp
    BADGE_THRESHOLDS s

/-- Model of `data = event.get("data") or {}; user_id = data.get("usuario_id")`.
Events in this system carry integer user ids, so a present id is a
`JVal.nat`. -/
def extract_usuario_id (event : List (String × JVal)) : Option Nat :=
  match jget event "data" with
  | some (JVal.obj fields) =>
    match jget fields "usuario_id" with
    | some (JVal.nat n) => some n
    | _ => none
  | _ => none

/-- Return value of `process_validated_report`: the error dictionary when
`usuario_id` is missing, otherwise the reward summary. -/
inductive ProcessResult where
  | missingUsuarioId
  | rewarded (user_id : Nat) (total_xp : Nat) (total_coins : Nat)
      (new_badges : List String)
deriving Repr

/-- Model of `process_validated_report` (`gamification_logic.py`): extract the user id
from `event["data"]["usuario_id"]`; on success add `XP_PER_VALID_REPORT` XP,
add `COINS_PER_VALID_REPORT` coins, then check and assign badges against the
new XP total. -/
def process_validated_report (s : RedisState) (event : List (String × JVal)) :
    RedisState × ProcessResult :=
  match extract_usuario_id event with
  | none => (s, .missingUsuarioId)
  | some user_id =>
    let xpRes := RedisGamificationClient.add_xp s user_id XP_PER_VALID_REPORT
    let coinRes := RedisGamificationClient.add_coins xpRes.1 user_id COINS_PER_VALID_REPORT
    let badgeRes := check_and_assign_badges coinRes.1 user_id xpRes.2
    (badgeRes.1, .rewarded user_id xpRes.2 coinRes.2 badgeRes.2)

/-- Model of `process_created_report` (`gamification_logic.py`): no reward; only an
error when `usuario_id` is missing. -/
def process_created_report (event : List (String × JVal)) : ProcessResult :=
  match extract_usuario_id event with
  | none => .missingUsuarioId
  | some user_id => .rewarded user_id 0 0 []

end GamificationService

namespace RabbitMQGamificationConsumer

/-- Constant `RabbitMQGamificationConsumer.EXCHANGE_NAME` (`rabbitmq_consumer.py`). -/
def EXCHANGE_NAME : String := "traffic.events"

/-- Constant `RabbitMQGamificationConsumer.QUEUE_NAME`. -/
def QUEUE_NAME : String := "gamification.reports"

/-- Constant `RabbitMQGamificationConsumer.ROUTING_KEYS`. -/
def ROUTING_KEYS : List String := ["reporte_creado", "reporte_validado"]

/-- One binding of the gamification queue, created in `_connect`. -/
structure QueueBinding where
  exchange : String
  routing_key : String
deriving Repr, DecidableEq

/-- The bindings created in `_connect`: the queue is bound to
`EXCHANGE_NAME` once per routing key in `ROUTING_KEYS`. -/
def queueBindings : List QueueBinding :=
  ROUTING_KEYS.map (fun rk => { exchange := EXCHANGE_NAME, routing_key := rk })

/-- Topic-exchange delivery: a published message reaches the gamification
queue exactly when some binding names the message's exchange and matches its
routing key.  The declared binding keys contain no `*`/`#` wildcards, so
topic matching degenerates to string equality. -/
def queueReceives (msg : PublishedMessage) : Bool :=
  queueBindings.any
    (fun b => b.exchange == msg.exchange && b.routing_key == msg.routing_key)

/-- What `_on_message` does with a decoded payload. -/
inductive DispatchResult where
  | validado (r : GamificationService.ProcessResult)
  | creado (r : GamificationService.ProcessResult)
  | ignored
deriving Repr

/-- Model of `_on_message` (`rabbitmq_consumer.py`) on a successfully decoded JSON
payload: dispatch on `payload.get("type")`, handling `"reporte_validado"`
and `"reporte_creado"`; every other value (including a missing key) is
logged and ignored. -/
def on_message (s : RedisState) (payload : List (String × JVal)) :
    RedisState × DispatchResult :=
  match jget payload "type" with
  | some (JVal.str "reporte_validado") =>
    let r := GamificationService.process_validated_report s payload
    (r.1, .validado r.2)
  | some (JVal.str "reporte_creado") =>
    (s, .creado (GamificationService.process_created_report payload))
  | _ => (s, .ignored)

end RabbitMQGamificationConsumer

/-! ## Lifecycle invariant of the validation state machine -/

/-- Validating users recorded for an incident: one entry per
`ValidacionIncidente` row with that `incidente_id`. -/
def validatorsOf (db : TrafficDB) (incidente_id : Nat) : List Nat :=
  (db.validaciones.filter (fun v => v.incidente_id == incidente_id)).map
    (fun v => v.usuario_id)

/-- Per-incident well-formedness: the validation rows for the incident name
pairwise-distinct users (at most one row per `(incidente_id, usuario_id)`
pair, mirroring `uq_validacion_usuario_incidente`), the counter equals the
number of those rows, and the state is `verificado` exactly when the
counter has reached 3. -/
def IncidenteOk (db : TrafficDB) (inc : Incidente) : Prop :=
  (validatorsOf db inc.id).Nodup ∧
  inc.validaciones_count = (validatorsOf db inc.id).length ∧
  (inc.estado = EstadoIncidenteEnum.verificado ↔ 3 ≤ inc.validaciones_count)

/-- Store-level invariant: primary keys are unique and every incident row is
well-formed.  It holds for freshly created incidents (counter 0, state
`pendiente`, no validation rows) and is preserved by `validar_reporte`. -/
def DBInv (db : TrafficDB) : Prop :=
  (db.incidentes.map (fun i => i.id)).Nodup ∧
  ∀ inc ∈ db.incidentes, IncidenteOk db inc

/-- Run a sequence of `validar_reporte` calls, each given as
`(reporte_id, usuario_id, publishOk)`, accumulating the committed store. -/
def runValidaciones (db : TrafficDB) : List (Nat × Nat × Bool) → TrafficDB
  | [] => db
  | (r, u, p) :: rest => runValidaciones (validar_reporte db r u p).db rest

/-- A small concrete store: one pending incident owned by user 7, no
validation rows. -/
def dbEjemplo : TrafficDB :=
  { incidentes :=
      [{ id := 1, tipo := "choque", descripcion := "Choque frontal", latitud := 0,
         longitud := 0, severidad := SeveridadEnum.alta,
         estado := EstadoIncidenteEnum.pendiente, usuario_id := 7,
         validaciones_count := 0 }]
    validaciones := [] }

/-- An already-verified incident row owned by user 7 with 3 validations. -/
def incVerificado : Incidente :=
  { id := 1, tipo := "choque", descripcion := "Choque frontal", latitud := 0,
    longitud := 0, severidad := SeveridadEnum.alta,
    estado := EstadoIncidenteEnum.verificado, usuario_id := 7,
    validaciones_count := 3 }

/-- A store holding the verified incident and its three validation rows. -/
def dbVerificado : TrafficDB :=
  { incidentes := [incVerificado], validaciones := [⟨1, 2⟩, ⟨1, 3⟩, ⟨1, 4⟩] }

/-- A pending incident row owned by user 7 with 2 validations. -/
def incDosValidaciones : Incidente :=
  { id := 1, tipo := "choque", descripcion := "Choque frontal", latitud := 0,
    longitud := 0, severidad := SeveridadEnum.alta,
    estado := EstadoIncidenteEnum.pendiente, usuario_id := 7,
    validaciones_count := 2 }

/-- A store one validation away from verification. -/
def dbDosValidaciones : TrafficDB :=
  { incidentes := [incDosValidaciones], validaciones := [⟨1, 2⟩, ⟨1, 3⟩] }

/-- The verification message published for the incident of
`dbDosValidaciones` once user 4 supplies the third validation: owner 7,
50 base points, count 3. -/
def eventoVerificadoEjemplo : PublishedMessage :=
  publish_event "reporte_verificado" 7 50
    [("incidente_id", JVal.nat 1), ("validaciones_count", JVal.nat 3),
     ("tipo_incidente", JVal.str "choque"), ("severidad", JVal.str "alta")]

/-- A message shaped the way the consumer expects: `type` field
`reporte_validado` and a nested `data.usuario_id`. -/
def eventoFormaConsumidor : List (String × JVal) :=
  [("type", JVal.str "reporte_validado"),
   ("data", JVal.obj [("reporte_id", JVal.nat 1), ("usuario_id", JVal.nat 7)])]

/-- A `validar_reporte` call either leaves the store untouched or, exactly
when the incident exists, the caller is neither the owner nor a prior
validator, and the state is not yet `verificado`, commits the `mutateDB`
transaction. -/
theorem validar_db_eq_or_mutate (db : TrafficDB) (r u : Nat) (p : Bool) :
    (validar_reporte db r u p).db = db ∨
    ∃ inc, db.findIncidente r = some inc ∧ inc.usuario_id ≠ u ∧
      db.hasValidacion r u = false ∧ inc.estado ≠ EstadoIncidenteEnum.verificado ∧
      (validar_reporte db r u p).db =
        mutateDB db r u (inc.validaciones_count + 1)
          (if inc.validaciones_count + 1 ≥ 3 then EstadoIncidenteEnum.verificado
           else inc.estado) := by
  cases h : db.findIncidente r with
  | none => left; simp [validar_reporte, h]
  | some inc =>
    by_cases h1 : inc.usuario_id = u
    · left; simp [validar_reporte, h, h1]
    · by_cases h2 : db.hasValidacion r u
      · left; simp [validar_reporte, h, h1, h2]
      · by_cases h3 : inc.estado = EstadoIncidenteEnum.verificado
        · left; simp [validar_reporte, h, h1, h2, h3]
        · right
          refine ⟨inc, rfl, h1, by simpa using h2, h3, ?_⟩
          simp [validar_reporte, h, h1, h2, h3]

/-- Updating the matching incident rows does not change the list of primary
keys. -/
theorem mutateDB_ids (db : TrafficDB) (r u nc : Nat) (ne : EstadoIncidenteEnum) :
    (mutateDB db r u nc ne).incidentes.map (fun i => i.id) =
      db.incidentes.map (fun i => i.id) := by
  simp only [mutateDB, List.map_map]
  apply List.map_congr_left
  intro i _
  simp only [Function.comp]
  split <;> rfl

/-- A `validar_reporte` call does not change the list of primary keys. -/
theorem validar_ids (db : TrafficDB) (r u : Nat) (p : Bool) :
    (validar_reporte db r u p).db.incidentes.map (fun i => i.id) =
      db.incidentes.map (fun i => i.id) := by
  rcases validar_db_eq_or_mutate db r u p with h | ⟨inc, _, _, _, _, h⟩
  · rw [h]
  · rw [h, mutateDB_ids]

/-- Validators recorded by the mutation: the new row adds `u` to the target
incident's validators and leaves every other incident's validators alone. -/
theorem validatorsOf_mutateDB (db : TrafficDB) (r u nc : Nat)
    (ne : EstadoIncidenteEnum) (i : Nat) :
    validatorsOf (mutateDB db r u nc ne) i =
      validatorsOf db i ++ if r = i then [u] else [] := by
  by_cases h : r = i <;>
    simp [validatorsOf, mutateDB, List.filter_append, h]

/-- When the duplicate check passes, the caller is not among the incident's
recorded validators. -/
theorem not_mem_validatorsOf (db : TrafficDB) (r u : Nat)
    (h : db.hasValidacion r u = false) : u ∉ validatorsOf db r := by
  intro hmem
  simp only [validatorsOf, List.mem_map, List.mem_filter] at hmem
  obtain ⟨v, ⟨hv, hvi⟩, hvu⟩ := hmem
  cases hf : db.validaciones.find?
      (fun v => v.incidente_id == r && v.usuario_id == u) with
  | some w => rw [TrafficDB.hasValidacion, hf] at h; simp at h
  | none =>
    have hall := List.find?_eq_none.mp hf v hv
    simp only [beq_iff_eq, Bool.and_eq_true, not_and] at hall
    simp only [beq_iff_eq] at hvi
    exact hall hvi hvu

/-- The incident found by the existence check is a stored row whose id is
the requested one. -/
theorem findIncidente_mem_id (db : TrafficDB) (r : Nat) (inc : Incidente)
    (h : db.findIncidente r = some inc) : inc ∈ db.incidentes ∧ inc.id = r := by
  refine ⟨List.mem_of_find?_eq_some h, ?_⟩
  have := List.find?_some h
  simpa [beq_iff_eq] using this

/-- With unique primary keys, two stored rows with the same id are the same
row. -/
theorem eq_of_mem_of_id_eq (db : TrafficDB)
    (hids : (db.incidentes.map (fun i => i.id)).Nodup)
    {a b : Incidente} (ha : a ∈ db.incidentes) (hb : b ∈ db.incidentes)
    (hid : a.id = b.id) : a = b :=
  List.inj_on_of_nodup_map hids ha hb hid

/-- One `validar_reporte` call preserves the store invariant. -/
theorem DBInv_step (db : TrafficDB) (r u : Nat) (p : Bool) (hinv : DBInv db) :
    DBInv (validar_reporte db r u p).db := by
  rcases validar_db_eq_or_mutate db r u p with h | ⟨inc, hfind, hown, hdup, hnver, h⟩
  · rw [h]; exact hinv
  obtain ⟨hmem, hid⟩ := findIncidente_mem_id db r inc hfind
  have hu : u ∉ validatorsOf db r := not_mem_validatorsOf db r u hdup
  rw [h]
  refine ⟨by rw [mutateDB_ids]; exact hinv.1, ?_⟩
  intro inc' hmem'
  simp only [mutateDB, List.mem_map] at hmem'
  obtain ⟨inc0, hinc0, rfl⟩ := hmem'
  obtain ⟨hnd, hcount, hiff⟩ := hinv.2 inc0 hinc0
  by_cases hc : inc0.id = r
  · have hinc0eq : inc0 = inc :=
      eq_of_mem_of_id_eq db hinv.1 hinc0 hmem (hc.trans hid.symm)
    rw [← hinc0eq] at hnver h ⊢
    rw [hc] at hcount
    refine ⟨?_, ?_, ?_⟩ <;>
      simp only [hc, beq_self_eq_true, if_true, validatorsOf_mutateDB, if_pos rfl]
    · simp [List.nodup_append, hc ▸ hnd, hu]
    · simp [hcount, List.length_append]
    · by_cases h3 : 3 ≤ inc0.validaciones_count + 1 <;> simp [h3, hnver]
  · have hbeq : (inc0.id == r) = false := by simp [hc]
    have hne : r ≠ inc0.id := fun hcontra => hc hcontra.symm
    simp only [hbeq, Bool.false_eq_true, if_false]
    exact ⟨by rw [validatorsOf_mutateDB, if_neg hne, List.append_nil]; exact hnd,
           by rw [validatorsOf_mutateDB, if_neg hne, List.append_nil]; exact hcount,
           hiff⟩

/-- One `validar_reporte` call never decreases a stored counter, never
regresses a `verificado` state, and only sets `verificado` on a row whose
counter lands exactly on 3. -/
theorem validar_mono_step (db : TrafficDB) (r u : Nat) (p : Bool) (hinv : DBInv db) :
    ∀ inc ∈ db.incidentes, ∀ inc' ∈ (validar_reporte db r u p).db.incidentes,
      inc.id = inc'.id →
      inc.validaciones_count ≤ inc'.validaciones_count ∧
      (inc.estado = EstadoIncidenteEnum.verificado →
        inc'.estado = EstadoIncidenteEnum.verificado) ∧
      (inc.estado ≠ EstadoIncidenteEnum.verificado →
        inc'.estado = EstadoIncidenteEnum.verificado →
        inc'.validaciones_count = 3) := by
  intro inc hmemA inc' hmemB hideq
  rcases validar_db_eq_or_mutate db r u p with h | ⟨incF, hfind, hown, hdup, hnver, h⟩
  · rw [h] at hmemB
    have heq : inc = inc' := eq_of_mem_of_id_eq db hinv.1 hmemA hmemB hideq
    subst heq
    exact ⟨le_refl _, fun hv => hv, fun hnv hv => absurd hv hnv⟩
  · obtain ⟨hmemF, hidF⟩ := findIncidente_mem_id db r incF hfind
    rw [h] at hmemB
    simp only [mutateDB, List.mem_map] at hmemB
    obtain ⟨inc0, hinc0, rfl⟩ := hmemB
    by_cases hc : inc0.id = r
    · have h1 : inc0 = incF :=
        eq_of_mem_of_id_eq db hinv.1 hinc0 hmemF (hc.trans hidF.symm)
      rw [← h1] at hnver hideq ⊢
      simp only [hc, beq_self_eq_true, if_true] at hideq ⊢
      have h2 : inc = inc0 := eq_of_mem_of_id_eq db hinv.1 hmemA hinc0 (hideq.trans hc.symm)
      subst h2
      obtain ⟨hnd, hcount, hiff⟩ := hinv.2 inc hmemA
      have hnot3 : ¬ 3 ≤ inc.validaciones_count := fun hcontra => hnver (hiff.mpr hcontra)
      refine ⟨by simp, fun hv => absurd hv hnver, fun hnv hv => ?_⟩
      by_cases h3 : 3 ≤ inc.validaciones_count + 1
      · show inc.validaciones_count + 1 = 3
        omega
      · rw [if_neg h3] at hv
        exact absurd hv hnver
    · have hbeq : (inc0.id == r) = false := by simp [hc]
      simp only [hbeq, Bool.false_eq_true, if_false] at hideq ⊢
      have h2 : inc = inc0 := eq_of_mem_of_id_eq db hinv.1 hmemA hinc0 hideq
      subst h2
      exact ⟨le_refl _, fun hv => hv, fun hnv hv => absurd hv hnv⟩

/-- Calls preserve the set of primary keys, so every stored row has a
same-id successor row. -/
theorem exists_same_id (db db' : TrafficDB)
    (hids : db'.incidentes.map (fun i => i.id) = db.incidentes.map (fun i => i.id))
    {inc : Incidente} (hmem : inc ∈ db.incidentes) :
    ∃ inc', inc' ∈ db'.incidentes ∧ inc'.id = inc.id := by
  have hmemid : inc.id ∈ db'.incidentes.map (fun i => i.id) := by
    rw [hids]; exact List.mem_map_of_mem _ hmem
  obtain ⟨inc', hmem', hid⟩ := List.mem_map.1 hmemid
  exact ⟨inc', hmem', hid⟩

/-- Any sequence of `validar_reporte` calls preserves the invariant, never
decreases a counter, and never regresses a `verificado` state. -/
theorem runValidaciones_inv_mono (calls : List (Nat × Nat × Bool)) :
    ∀ db : TrafficDB, DBInv db →
      DBInv (runValidaciones db calls) ∧
      ∀ inc ∈ db.incidentes, ∀ inc' ∈ (runValidaciones db calls).incidentes,
        inc.id = inc'.id →
        inc.validaciones_count ≤ inc'.validaciones_count ∧
        (inc.estado = EstadoIncidenteEnum.verificado →
          inc'.estado = EstadoIncidenteEnum.verificado) := by
  induction calls with
  | nil =>
    intro db hinv
    refine ⟨hinv, ?_⟩
    intro inc hmemA inc' hmemB hideq
    have heq : inc = inc' := eq_of_mem_of_id_eq db hinv.1 hmemA hmemB hideq
    subst heq
    exact ⟨le_refl _, fun hv => hv⟩
  | cons hd tl ih =>
    intro db hinv
    obtain ⟨r, u, p⟩ := hd
    simp only [runValidaciones]
    have hinv1 := DBInv_step db r u p hinv
    obtain ⟨hinvN, hmono⟩ := ih (validar_reporte db r u p).db hinv1
    refine ⟨hinvN, ?_⟩
    intro inc hmemA inc' hmemB hideq
    obtain ⟨inc1, hmem1, hid1⟩ := exists_same_id db (validar_reporte db r u p).db
      (validar_ids db r u p) hmemA
    have hstep := validar_mono_step db r u p hinv inc hmemA inc1 hmem1 hid1.symm
    have hrest := hmono inc1 hmem1 inc' hmemB (hid1.trans hideq)
    exact ⟨le_trans hstep.1 hrest.1, fun hv => hrest.2 (hstep.2.1 hv)⟩

/-- C1: for every incident reachable by any sequence of `validar_reporte`
calls from an invariant-satisfying store, `validaciones_count` never
decreases, always equals (so never exceeds) the number of distinct
validating users with a recorded validation (at most one row per
`(incidente_id, usuario_id)` pair), and the state is `verificado` exactly
when the counter has reached 3 — a single call only sets `verificado` on a
row whose counter lands exactly on 3, and the state never regresses
afterwards. -/
theorem C1_incident_lifecycle_invariant (db : TrafficDB) (hinv : DBInv db)
    (calls : List (Nat × Nat × Bool)) :
    DBInv (runValidaciones db calls) ∧
    (∀ inc ∈ db.incidentes, ∀ inc' ∈ (runValidaciones db calls).incidentes,
      inc.id = inc'.id →
      inc.validaciones_count ≤ inc'.validaciones_count ∧
      (inc.estado = EstadoIncidenteEnum.verificado →
        inc'.estado = EstadoIncidenteEnum.verificado)) ∧
    (∀ r u p, ∀ inc ∈ db.incidentes,
      ∀ inc' ∈ (validar_reporte db r u p).db.incidentes,
      inc.id = inc'.id → inc.estado ≠ EstadoIncidenteEnum.verificado →
      inc'.estado = EstadoIncidenteEnum.verificado →
      inc'.validaciones_count = 3) := by
  obtain ⟨h1, h2⟩ := runValidaciones_inv_mono calls db hinv
  refine ⟨h1, h2, ?_⟩
  intro r u p inc hmemA inc' hmemB hideq hnv hv
  exact (validar_mono_step db r u p hinv inc hmemA inc' hmemB hideq).2.2 hnv hv

/-- Witness for C1 at the concrete store `dbEjemplo` and the call sequence
in which users 2, 3, 4 validate incident 1. -/
theorem C1_witness :
    DBInv dbEjemplo ∧
    (DBInv (runValidaciones dbEjemplo [(1, 2, true), (1, 3, true), (1, 4, true)]) ∧
      (∀ inc ∈ dbEjemplo.incidentes,
        ∀ inc' ∈ (runValidaciones dbEjemplo
            [(1, 2, true), (1, 3, true), (1, 4, true)]).incidentes,
        inc.id = inc'.id →
        inc.validaciones_count ≤ inc'.validaciones_count ∧
        (inc.estado = EstadoIncidenteEnum.verificado →
          inc'.estado = EstadoIncidenteEnum.verificado)) ∧
      (∀ r u p, ∀ inc ∈ dbEjemplo.incidentes,
        ∀ inc' ∈ (validar_reporte dbEjemplo r u p).db.incidentes,
        inc.id = inc'.id → inc.estado ≠ EstadoIncidenteEnum.verificado →
        inc'.estado = EstadoIncidenteEnum.verificado →
        inc'.validaciones_count = 3)) :=
  have hinv : DBInv dbEjemplo := by
    unfold DBInv IncidenteOk validatorsOf dbEjemplo
    decide
  ⟨hinv, C1_incident_lifecycle_invariant dbEjemplo hinv
    [(1, 2, true), (1, 3, true), (1, 4, true)]⟩

/-- C3: `validar_reporte` checks its preconditions in a fixed order with a
distinct failure each — missing incident gives 404 `notFound`; otherwise a
caller equal to the owner gives 400 `selfValidation`; otherwise an existing
`(incidente_id, usuario_id)` validation row gives 400 `duplicate`; only
when all three pass is a 200 response (the verified short-circuit or the
mutation) reached.  The owner and duplicate checks do not look at the
state, so they fire even on an already-verified incident. -/
theorem C3_precondition_order (db : TrafficDB) (r u : Nat) (p : Bool) :
    (db.findIncidente r = none →
      (validar_reporte db r u p).outcome = ValidarOutcome.notFound ∧
      (validar_reporte db r u p).outcome.statusCode = 404) ∧
    (∀ inc, db.findIncidente r = some inc → inc.usuario_id = u →
      (validar_reporte db r u p).outcome = ValidarOutcome.selfValidation ∧
      (validar_reporte db r u p).outcome.statusCode = 400) ∧
    (∀ inc, db.findIncidente r = some inc → inc.usuario_id ≠ u →
      db.hasValidacion r u = true →
      (validar_reporte db r u p).outcome = ValidarOutcome.duplicate ∧
      (validar_reporte db r u p).outcome.statusCode = 400) ∧
    (∀ inc, db.findIncidente r = some inc → inc.usuario_id ≠ u →
      db.hasValidacion r u = false →
      ∃ resp, (validar_reporte db r u p).outcome = ValidarOutcome.ok resp ∧
        (validar_reporte db r u p).outcome.statusCode = 200) := by
  refine ⟨?_, ?_, ?_, ?_⟩
  · intro h
    simp [validar_reporte, h, ValidarOutcome.statusCode]
  · intro inc hf ho
    simp [validar_reporte, hf, ho, ValidarOutcome.statusCode]
  · intro inc hf ho hd
    simp [validar_reporte, hf, ho, hd, ValidarOutcome.statusCode]
  · intro inc hf ho hd
    by_cases hv : inc.estado = EstadoIncidenteEnum.verificado <;>
      simp [validar_reporte, hf, ho, hd, hv, ValidarOutcome.statusCode]

/-- C4: on an already-verified incident, a caller who is not the owner and
has no prior validation row gets a 200 response with `verificado = true`
and the current counter, and nothing is mutated: no row is inserted, the
store is unchanged, and no event is published. -/
theorem C4_already_verified_noop (db : TrafficDB) (r u : Nat) (p : Bool)
    (inc : Incidente) (hf : db.findIncidente r = some inc)
    (ho : inc.usuario_id ≠ u) (hd : db.hasValidacion r u = false)
    (hv : inc.estado = EstadoIncidenteEnum.verificado) :
    (validar_reporte db r u p).db = db ∧
    (validar_reporte db r u p).events = [] ∧
    (validar_reporte db r u p).outcome = ValidarOutcome.ok
      { incidente_id := inc.id
        usuario_id := u
        validaciones_count := inc.validaciones_count
        estado := inc.estado
        verificado := true
        mensaje := "El reporte ya está verificado con " ++
          toString inc.validaciones_count ++ " validaciones" } := by
  simp [validar_reporte, hf, ho, hd, hv]

/-- C5: when a `validar_reporte` call causes the `verificado` transition
(all preconditions pass, the state was not yet `verificado`, and the
incremented counter reaches 3) and the publish succeeds, exactly one event
reaches the broker: a persistent flat key-value payload carrying event type
`reporte_verificado`, the owner's id (not the validator's), 50 base points,
the counter at transition time, the incident type and the severity,
published with routing key equal to the event type string; and without the
transition no event is handed at all. -/
theorem C5_verification_event (db : TrafficDB) (r u : Nat)
    (inc : Incidente) (hf : db.findIncidente r = some inc)
    (ho : inc.usuario_id ≠ u) (hd : db.hasValidacion r u = false)
    (hnv : inc.estado ≠ EstadoIncidenteEnum.verificado) :
    (3 ≤ inc.validaciones_count + 1 →
      (validar_reporte db r u true).events =
        [{ exchange := RabbitMQProducer.EXCHANGE_NAME
           payload :=
             [("event_type", JVal.str "reporte_verificado"),
              ("user_id", JVal.nat inc.usuario_id),
              ("puntos_base", JVal.nat 50),
              ("incidente_id", JVal.nat inc.id),
              ("validaciones_count", JVal.nat (inc.validaciones_count + 1)),
              ("tipo_incidente", JVal.str inc.tipo),
              ("severidad", JVal.str inc.severidad.value)]
           routing_key := "reporte_verificado"
           persistent := true }]) ∧
    (¬ 3 ≤ inc.validaciones_count + 1 →
      ∀ p, (validar_reporte db r u p).events = []) := by
  constructor
  · intro h3
    simp [validar_reporte, hf, ho, hd, hnv, h3, publish_event]
  · intro h3 p
    simp [validar_reporte, hf, ho, hd, hnv, h3]

/-- Witness for C3: each precondition branch exercised on a concrete store;
the owner (user 7) and a prior validator (user 2) get their errors even
though incident 1 is already verified. -/
theorem C3_witness :
    ((validar_reporte dbEjemplo 99 2 true).outcome = ValidarOutcome.notFound ∧
     (validar_reporte dbEjemplo 99 2 true).outcome.statusCode = 404) ∧
    ((validar_reporte dbVerificado 1 7 true).outcome = ValidarOutcome.selfValidation ∧
     (validar_reporte dbVerificado 1 7 true).outcome.statusCode = 400) ∧
    ((validar_reporte dbVerificado 1 2 true).outcome = ValidarOutcome.duplicate ∧
     (validar_reporte dbVerificado 1 2 true).outcome.statusCode = 400) ∧
    (∃ resp, (validar_reporte dbVerificado 1 9 true).outcome = ValidarOutcome.ok resp ∧
     (validar_reporte dbVerificado 1 9 true).outcome.statusCode = 200) :=
  ⟨(C3_precondition_order dbEjemplo 99 2 true).1 (by decide),
   (C3_precondition_order dbVerificado 1 7 true).2.1 incVerificado (by decide) (by decide),
   (C3_precondition_order dbVerificado 1 2 true).2.2.1 incVerificado (by decide)
     (by decide) (by decide),
   (C3_precondition_order dbVerificado 1 9 true).2.2.2 incVerificado (by decide)
     (by decide) (by decide)⟩

/-- Witness for C4: user 9 re-validates the already-verified incident 1 —
success with the unchanged count 3, no mutation, no event. -/
theorem C4_witness :
    (validar_reporte dbVerificado 1 9 true).db = dbVerificado ∧
    (validar_reporte dbVerificado 1 9 true).events = [] ∧
    (validar_reporte dbVerificado 1 9 true).outcome = ValidarOutcome.ok
      { incidente_id := 1, usuario_id := 9, validaciones_count := 3,
        estado := EstadoIncidenteEnum.verificado, verificado := true,
        mensaje := "El reporte ya está verificado con 3 validaciones" } :=
  C4_already_verified_noop dbVerificado 1 9 true incVerificado (by decide)
    (by decide) (by decide) (by decide)

/-- Witness for C5: user 4's validation verifies incident 1, and exactly the
expected persistent message for owner 7 with 50 base points and count 3 is
published under routing key `reporte_verificado`. -/
theorem C5_witness :
    (validar_reporte dbDosValidaciones 1 4 true).events =
      [{ exchange := RabbitMQProducer.EXCHANGE_NAME
         payload :=
           [("event_type", JVal.str "reporte_verificado"),
            ("user_id", JVal.nat 7),
            ("puntos_base", JVal.nat 50),
            ("incidente_id", JVal.nat 1),
            ("validaciones_count", JVal.nat 3),
            ("tipo_incidente", JVal.str "choque"),
            ("severidad", JVal.str "alta")]
         routing_key := "reporte_verificado"
         persistent := true }] :=
  (C5_verification_event dbDosValidaciones 1 4 incDosValidaciones (by decide)
    (by decide) (by decide) (by decide)).1 (by decide)

/-- C7: severity classification is total with a safe default — on every
failing oracle behaviour (timeout under the 10-second bound, HTTP error
status, connection error, any other exception) `clasificar_severidad`
returns `media` instead of propagating, and `reportar_incidente` still
creates the incident with that defaulted severity. -/
theorem C7_severity_default (o : OracleOutcome) (h : o.isFailure = true)
    (db : TrafficDB) (inc : IncidenteCreate) (p : Bool) :
    clasificar_severidad o = SeveridadEnum.media ∧
    (reportar_incidente db inc o p).created.severidad = SeveridadEnum.media ∧
    (reportar_incidente db inc o p).created.estado = EstadoIncidenteEnum.pendiente ∧
    (reportar_incidente db inc o p).created ∈ (reportar_incidente db inc o p).db.incidentes ∧
    oracle_timeout_seconds = 10 := by
  cases o <;>
    simp_all [OracleOutcome.isFailure, clasificar_severidad, reportar_incidente,
      oracle_timeout_seconds]

/-- Witness for C7: a timed-out oracle call leaves a freshly reported
incident created with severity `media`. -/
theorem C7_witness :
    clasificar_severidad OracleOutcome.timeoutError = SeveridadEnum.media ∧
    (reportar_incidente dbEjemplo
      { tipo := "bache", descripcion := "Bache grande", latitud := 0, longitud := 0,
        usuario_id := 5 } OracleOutcome.timeoutError true).created.severidad =
      SeveridadEnum.media ∧
    (reportar_incidente dbEjemplo
      { tipo := "bache", descripcion := "Bache grande", latitud := 0, longitud := 0,
        usuario_id := 5 } OracleOutcome.timeoutError true).created.estado =
      EstadoIncidenteEnum.pendiente ∧
    (reportar_incidente dbEjemplo
      { tipo := "bache", descripcion := "Bache grande", latitud := 0, longitud := 0,
        usuario_id := 5 } OracleOutcome.timeoutError true).created ∈
      (reportar_incidente dbEjemplo
        { tipo := "bache", descripcion := "Bache grande", latitud := 0, longitud := 0,
          usuario_id := 5 } OracleOutcome.timeoutError true).db.incidentes ∧
    oracle_timeout_seconds = 10 :=
  C7_severity_default OracleOutcome.timeoutError (by decide) dbEjemplo
    { tipo := "bache", descripcion := "Bache grande", latitud := 0, longitud := 0,
      usuario_id := 5 } true

/-- C8: publish-failure isolation and error atomicity — the committed store
and the HTTP outcome of both endpoints are independent of whether event
publication succeeds, `reportar_incidente` always returns its created row,
and whenever `validar_reporte` fails the store is unchanged and no event is
published. -/
theorem C8_publish_failure_isolation (db : TrafficDB) :
    (∀ r u, (validar_reporte db r u false).db = (validar_reporte db r u true).db ∧
      (validar_reporte db r u false).outcome = (validar_reporte db r u true).outcome) ∧
    (∀ inc o, (reportar_incidente db inc o false).db = (reportar_incidente db inc o true).db ∧
      (reportar_incidente db inc o false).created = (reportar_incidente db inc o true).created) ∧
    (∀ r u p, (validar_reporte db r u p).outcome.isError = true →
      (validar_reporte db r u p).db = db ∧ (validar_reporte db r u p).events = []) := by
  refine ⟨?_, ?_, ?_⟩
  · intro r u
    cases hf : db.findIncidente r
    · simp [validar_reporte, hf]
    · simp only [validar_reporte, hf]
      split_ifs <;> simp
  · intro inc o
    exact ⟨rfl, rfl⟩
  · intro r u p h
    cases hf : db.findIncidente r with
    | none => simp [validar_reporte, hf]
    | some inc =>
      by_cases h1 : inc.usuario_id = u
      · simp [validar_reporte, hf, h1]
      · by_cases h2 : db.hasValidacion r u
        · simp [validar_reporte, hf, h1, h2]
        · by_cases h3 : inc.estado = EstadoIncidenteEnum.verificado
          · simp [validar_reporte, hf, h1, h2, h3, ValidarOutcome.isError] at h
          · simp [validar_reporte, hf, h1, h2, h3, ValidarOutcome.isError] at h

/-- Witness for C8 at concrete stores: a failing publish changes neither the
store nor the outcome of the verifying call, and the 404 error leaves the
store unchanged. -/
theorem C8_witness :
    ((validar_reporte dbDosValidaciones 1 4 false).db =
        (validar_reporte dbDosValidaciones 1 4 true).db ∧
      (validar_reporte dbDosValidaciones 1 4 false).outcome =
        (validar_reporte dbDosValidaciones 1 4 true).outcome) ∧
    ((validar_reporte dbDosValidaciones 99 4 true).db = dbDosValidaciones ∧
      (validar_reporte dbDosValidaciones 99 4 true).events = []) :=
  ⟨(C8_publish_failure_isolation dbDosValidaciones).1 1 4,
   (C8_publish_failure_isolation dbDosValidaciones).2.2 99 4 true (by decide)⟩

/-- C10: a user id with no stored gamification state reads as all-zero —
`get_xp` and `get_coins` return 0, `get_badges` returns the empty list, and
`get_user_profile` reports xp 0, coins 0, level 1 and no badges. -/
theorem C10_absent_user_defaults (s : RedisState) (u : Nat)
    (hx : s.xp.find? (fun q => q.1 = u) = none)
    (hc : s.coins.find? (fun q => q.1 = u) = none)
    (hb : s.badges.find? (fun q => q.1 = u) = none) :
    RedisGamificationClient.get_xp s u = 0 ∧
    RedisGamificationClient.get_coins s u = 0 ∧
    RedisGamificationClient.get_badges s u = [] ∧
    RedisGamificationClient.get_user_profile s u =
      { user_id := u, xp := 0, coins := 0, level := 1, badges := [] } := by
  unfold RedisGamificationClient.get_user_profile RedisGamificationClient.get_xp
    RedisGamificationClient.get_coins RedisGamificationClient.get_badges alistGet
  rw [hx, hc, hb]
  simp

/-- Witness for C10: the empty Redis state and user 42. -/
theorem C10_witness :
    RedisGamificationClient.get_xp RedisState.empty 42 = 0 ∧
    RedisGamificationClient.get_coins RedisState.empty 42 = 0 ∧
    RedisGamificationClient.get_badges RedisState.empty 42 = [] ∧
    RedisGamificationClient.get_user_profile RedisState.empty 42 =
      { user_id := 42, xp := 0, coins := 0, level := 1, badges := [] } :=
  C10_absent_user_defaults RedisState.empty 42 rfl rfl rfl

/-- Reading the badge set after a `SADD` yields the old set with the badge
set-added. -/
theorem find_saddAlist (l : List (Nat × List String)) (uid : Nat) (b : String) :
    (RedisGamificationClient.saddAlist l uid b).find? (fun p => p.1 = uid) =
      some (uid, RedisGamificationClient.sadd
        (match l.find? (fun p => p.1 = uid) with
         | some p => p.2
         | none => []) b) := by
  induction l with
  | nil => simp [RedisGamificationClient.saddAlist, List.find?]
  | cons hd tl ih =>
    obtain ⟨k, v⟩ := hd
    by_cases hk : k = uid
    · subst hk
      simp [RedisGamificationClient.saddAlist, List.find?]
    · simp [RedisGamificationClient.saddAlist, hk, List.find?_cons_of_neg, ih]

/-- Effect of `add_badge` on the same user's badge set. -/
theorem get_badges_add_badge (s : RedisState) (uid : Nat) (b : String) :
    RedisGamificationClient.get_badges (RedisGamificationClient.add_badge s uid b) uid =
      RedisGamificationClient.sadd (RedisGamificationClient.get_badges s uid) b := by
  simp only [RedisGamificationClient.get_badges, RedisGamificationClient.add_badge,
    find_saddAlist]

/-- Membership in a set-added badge list. -/
theorem mem_sadd (l : List String) (b x : String) :
    x ∈ RedisGamificationClient.sadd l b ↔ x ∈ l ∨ x = b := by
  unfold RedisGamificationClient.sadd
  by_cases h : b ∈ l
  · rw [if_pos (by simpa using h)]
    constructor
    · exact Or.inl
    · rintro (hx | rfl)
      · exact hx
      · exact h
  · rw [if_neg (by simpa using h)]
    simp

/-- The new-badges list returned by the threshold loop contains exactly the
table names whose threshold is reached and which are missing from the
snapshot. -/
theorem check_badges_loop_mem (uid : Nat) (existing : List String) (xp : Nat)
    (table : List (Nat × String)) (s : RedisState) (name : String) :
    (name ∈ (GamificationService.check_badges_loop uid existing xp table s).2 ↔
      (∃ t, (t, name) ∈ table ∧ t ≤ xp) ∧ name ∉ existing) := by
  induction table generalizing s with
  | nil => simp [GamificationService.check_badges_loop]
  | cons hd tl ih =>
    obtain ⟨t0, n0⟩ := hd
    by_cases hcond : t0 ≤ xp ∧ n0 ∉ existing
    · simp only [GamificationService.check_badges_loop, if_pos hcond, List.mem_cons, ih]
      constructor
      · rintro (rfl | ⟨⟨t, htl, hle⟩, hnotin⟩)
        · exact ⟨⟨t0, Or.inl rfl, hcond.1⟩, hcond.2⟩
        · exact ⟨⟨t, Or.inr htl, hle⟩, hnotin⟩
      · rintro ⟨⟨t, heq | htl, hle⟩, hnotin⟩
        · injection heq with ht hn
          exact Or.inl hn
        · exact Or.inr ⟨⟨t, htl, hle⟩, hnotin⟩
    · simp only [GamificationService.check_badges_loop, if_neg hcond, List.mem_cons, ih]
      constructor
      · rintro ⟨⟨t, htl, hle⟩, hnotin⟩
        exact ⟨⟨t, Or.inr htl, hle⟩, hnotin⟩
      · rintro ⟨⟨t, heq | htl, hle⟩, hnotin⟩
        · injection heq with ht hn
          subst ht
          rw [← hn] at hcond
          exact absurd ⟨hle, hnotin⟩ hcond
        · exact ⟨⟨t, htl, hle⟩, hnotin⟩

/-- Every badge held before the loop, and every badge the loop awards, is in
the user's badge set after the loop. -/
theorem check_badges_loop_badges (uid : Nat) (existing : List String) (xp : Nat)
    (table : List (Nat × String)) (s : RedisState) (b : String)
    (h : b ∈ RedisGamificationClient.get_badges s uid ∨
      b ∈ (GamificationService.check_badges_loop uid existing xp table s).2) :
    b ∈ RedisGamificationClient.get_badges
      (GamificationService.check_badges_loop uid existing xp table s).1 uid := by
  induction table generalizing s with
  | nil =>
    simp only [GamificationService.check_badges_loop] at h ⊢
    simpa using h.resolve_right (by simp)
  | cons hd tl ih =>
    obtain ⟨t0, n0⟩ := hd
    by_cases hcond : t0 ≤ xp ∧ n0 ∉ existing
    · simp only [GamificationService.check_badges_loop, if_pos hcond,
        List.mem_cons] at h ⊢
      apply ih
      rcases h with hold | hnew
      · left
        rw [get_badges_add_badge, mem_sadd]
        exact Or.inl hold
      · rcases hnew with rfl | hrest
        · left
          rw [get_badges_add_badge, mem_sadd]
          exact Or.inr rfl
        · right
          exact hrest
    · simp only [GamificationService.check_badges_loop, if_neg hcond] at h ⊢
      exact ih s h

/-- When every reachable threshold's badge is already in the snapshot the
loop awards nothing. -/
theorem check_badges_loop_nil (uid : Nat) (existing : List String) (xp : Nat)
    (table : List (Nat × String)) (s : RedisState)
    (h : ∀ t name, (t, name) ∈ table → t ≤ xp → name ∈ existing) :
    (GamificationService.check_badges_loop uid existing xp table s).2 = [] := by
  induction table generalizing s with
  | nil => simp [GamificationService.check_badges_loop]
  | cons hd tl ih =>
    obtain ⟨t0, n0⟩ := hd
    have hcond : ¬(t0 ≤ xp ∧ n0 ∉ existing) := by
      rintro ⟨hle, hnot⟩
      exact hnot (h t0 n0 (List.mem_cons_self _ _) hle)
    simp only [GamificationService.check_badges_loop, if_neg hcond]
    exact ih s (fun t name hm hle => h t name (List.mem_cons_of_mem _ hm) hle)

/-- C6: processing a reward grants exactly the badges of
`BADGE_THRESHOLDS` whose threshold is at most the user's total XP and whose
name is not already owned (all thresholds crossed at once are granted), and
rerunning the check with the same total XP after the grants awards nothing
new. -/
theorem C6_badge_award (s : RedisState) (uid xp : Nat) :
    (∀ name, name ∈ (GamificationService.check_and_assign_badges s uid xp).2 ↔
      (∃ t, (t, name) ∈ GamificationService.BADGE_THRESHOLDS ∧ t ≤ xp) ∧
        name ∉ RedisGamificationClient.get_badges s uid) ∧
    (GamificationService.check_and_assign_badges
      (GamificationService.check_and_assign_badges s uid xp).1 uid xp).2 = [] := by
  constructor
  · intro name
    exact check_badges_loop_mem uid _ xp GamificationService.BADGE_THRESHOLDS s name
  · apply check_badges_loop_nil
    intro t name hmem hle
    by_cases hname : name ∈ RedisGamificationClient.get_badges s uid
    · exact check_badges_loop_badges uid _ xp _ s name (Or.inl hname)
    · refine check_badges_loop_badges uid _ xp _ s name (Or.inr ?_)
      exact (check_badges_loop_mem uid _ xp _ s name).2 ⟨⟨t, hmem, hle⟩, hname⟩

/-- Witness for C6: after a reward that takes user 7 to 120 XP on an empty
store, rerunning the badge check grants nothing new. -/
theorem C6_witness :
    (GamificationService.check_and_assign_badges
      (GamificationService.check_and_assign_badges RedisState.empty 7 120).1 7 120).2 =
      [] :=
  (C6_badge_award RedisState.empty 7 120).2

/-- Membership after a descending insertion. -/
theorem mem_insertDescByScore (p x : Nat × Nat) (l : List (Nat × Nat)) :
    x ∈ RedisGamificationClient.insertDescByScore p l ↔ x = p ∨ x ∈ l := by
  induction l with
  | nil => simp [RedisGamificationClient.insertDescByScore]
  | cons q rest ih =>
    by_cases h : q.2 ≤ p.2
    · simp [RedisGamificationClient.insertDescByScore, h]
    · simp only [RedisGamificationClient.insertDescByScore, if_neg h, List.mem_cons, ih]
      tauto

/-- Descending insertion preserves the descending order. -/
theorem pairwise_insertDescByScore (p : Nat × Nat) (l : List (Nat × Nat))
    (h : List.Pairwise (fun a b => b.2 ≤ a.2) l) :
    List.Pairwise (fun a b => b.2 ≤ a.2)
      (RedisGamificationClient.insertDescByScore p l) := by
  induction l with
  | nil => simp [RedisGamificationClient.insertDescByScore]
  | cons q rest ih =>
    rcases List.pairwise_cons.1 h with ⟨hq, hrest⟩
    by_cases hc : q.2 ≤ p.2
    · rw [RedisGamificationClient.insertDescByScore, if_pos hc]
      refine List.pairwise_cons.2 ⟨?_, h⟩
      intro x hx
      rcases List.mem_cons.1 hx with rfl | hxr
      · exact hc
      · exact le_trans (hq x hxr) hc
    · rw [RedisGamificationClient.insertDescByScore, if_neg hc]
      refine List.pairwise_cons.2 ⟨?_, ih hrest⟩
      intro x hx
      rcases (mem_insertDescByScore p x rest).1 hx with rfl | hxr
      · exact le_of_not_le hc
      · exact hq x hxr

/-- The sorted-set read order is descending by score. -/
theorem pairwise_sortDescByScore (l : List (Nat × Nat)) :
    List.Pairwise (fun a b => b.2 ≤ a.2)
      (RedisGamificationClient.sortDescByScore l) := by
  induction l with
  | nil => simp [RedisGamificationClient.sortDescByScore]
  | cons p rest ih =>
    exact pairwise_insertDescByScore p _ ih

/-- Length of the rank-enumerated list. -/
theorem length_rankFrom (start : Nat) (l : List (Nat × Nat)) :
    (RedisGamificationClient.rankFrom start l).length = l.length := by
  induction l generalizing start with
  | nil => rfl
  | cons hd tl ih =>
    obtain ⟨u, x⟩ := hd
    simp [RedisGamificationClient.rankFrom, ih]

/-- Each entry of the rank-enumerated list restates an input pair. -/
theorem mem_rankFrom (start : Nat) (l : List (Nat × Nat))
    (e : RedisGamificationClient.LeaderboardEntry)
    (h : e ∈ RedisGamificationClient.rankFrom start l) : (e.user_id, e.xp) ∈ l := by
  induction l generalizing start with
  | nil => simp [RedisGamificationClient.rankFrom] at h
  | cons hd tl ih =>
    obtain ⟨u, x⟩ := hd
    rcases List.mem_cons.1 h with rfl | hrest
    · simp
    · exact List.mem_cons_of_mem _ (ih (start + 1) hrest)

/-- Rank enumeration preserves descending XP order. -/
theorem pairwise_rankFrom (start : Nat) (l : List (Nat × Nat))
    (h : List.Pairwise (fun a b => b.2 ≤ a.2) l) :
    List.Pairwise (fun a b => b.xp ≤ a.xp)
      (RedisGamificationClient.rankFrom start l) := by
  induction l generalizing start with
  | nil => simp [RedisGamificationClient.rankFrom]
  | cons hd tl ih =>
    obtain ⟨u, x⟩ := hd
    rcases List.pairwise_cons.1 h with ⟨hhd, htl⟩
    refine List.pairwise_cons.2 ⟨?_, ih (start + 1) htl⟩
    intro e he
    exact hhd (e.user_id, e.xp) (mem_rankFrom (start + 1) tl e he)

/-- The rank field of the i-th enumerated entry is `start + i`. -/
theorem rankFrom_get_rank (l : List (Nat × Nat)) :
    ∀ (start i : Nat) (hi : i < (RedisGamificationClient.rankFrom start l).length),
      ((RedisGamificationClient.rankFrom start l).get ⟨i, hi⟩).rank = start + i := by
  induction l with
  | nil =>
    intro start i hi
    simp [RedisGamificationClient.rankFrom] at hi
  | cons hd tl ih =>
    intro start i hi
    obtain ⟨u, x⟩ := hd
    cases i with
    | zero => rfl
    | succ j =>
      have hj : j < (RedisGamificationClient.rankFrom (start + 1) tl).length := by
        simpa [RedisGamificationClient.rankFrom] using Nat.lt_of_succ_lt_succ hi
      have := ih (start + 1) j hj
      simp only [RedisGamificationClient.rankFrom, List.get] at this ⊢
      rw [this]
      omega

/-- C9: for every counter-store state and every limit of at least 1, the
leaderboard read returns at most `limit` entries, in descending XP order,
with rank fields exactly 1, 2, ..., k in output order. -/
theorem C9_leaderboard (s : RedisState) (limit : Nat) (_hlimit : 1 ≤ limit) :
    (RedisGamificationClient.get_leaderboard s limit).length ≤ limit ∧
    List.Pairwise (fun a b => b.xp ≤ a.xp)
      (RedisGamificationClient.get_leaderboard s limit) ∧
    ∀ (i : Nat) (hi : i < (RedisGamificationClient.get_leaderboard s limit).length),
      ((RedisGamificationClient.get_leaderboard s limit).get ⟨i, hi⟩).rank = i + 1 := by
  refine ⟨?_, ?_, ?_⟩
  · rw [RedisGamificationClient.get_leaderboard, length_rankFrom,
      RedisGamificationClient.zrevrange_top]
    exact List.length_take_le limit _
  · apply pairwise_rankFrom
    exact (pairwise_sortDescByScore s.leaderboard).sublist
      (List.take_sublist limit _)
  · intro i hi
    have h1 := rankFrom_get_rank (RedisGamificationClient.zrevrange_top s limit) 1 i hi
    exact h1.trans (Nat.add_comm 1 i)

/-- Witness for C9: a three-user store read with limit 2. -/
theorem C9_witness :
    (RedisGamificationClient.get_leaderboard
      { xp := [(1, 50), (2, 120), (3, 70)], coins := [], badges := [],
        leaderboard := [(1, 50), (2, 120), (3, 70)] } 2).length ≤ 2 ∧
    List.Pairwise (fun a b => b.xp ≤ a.xp)
      (RedisGamificationClient.get_leaderboard
        { xp := [(1, 50), (2, 120), (3, 70)], coins := [], badges := [],
          leaderboard := [(1, 50), (2, 120), (3, 70)] } 2) ∧
    ∀ (i : Nat) (hi : i < (RedisGamificationClient.get_leaderboard
        { xp := [(1, 50), (2, 120), (3, 70)], coins := [], badges := [],
          leaderboard := [(1, 50), (2, 120), (3, 70)] } 2).length),
      ((RedisGamificationClient.get_leaderboard
        { xp := [(1, 50), (2, 120), (3, 70)], coins := [], badges := [],
          leaderboard := [(1, 50), (2, 120), (3, 70)] } 2).get ⟨i, hi⟩).rank = i + 1 :=
  C9_leaderboard
    { xp := [(1, 50), (2, 120), (3, 70)], coins := [], badges := [],
      leaderboard := [(1, 50), (2, 120), (3, 70)] } 2 (by decide)

/-- C2 fails on the code: the verification event published by the traffic
service never reaches the gamification engine, and would not be recognized
or credited even if it did.  Concretely: the producer publishes
`eventoVerificadoEjemplo` on exchange `urban_drive_events` with routing key
`reporte_verificado`, but the consumer queue is bound to exchange
`traffic.events` with routing keys `reporte_creado`/`reporte_validado`, so
no binding matches; the dispatcher reads the `type` key, which the
producer's payload (keyed `event_type`) lacks, so the message would be
ignored; and the reward handler reads `data.usuario_id`, which the flat
payload lacks, so even forced dispatch would fail with a missing-user
error and award nothing.  The reward arithmetic itself is intact: a
consumer-shaped `reporte_validado` message credits exactly 10 XP and
5 coins to the extracted user. -/
theorem C2_reward_flow_broken :
    (validar_reporte dbDosValidaciones 1 4 true).events = [eventoVerificadoEjemplo] ∧
    eventoVerificadoEjemplo.exchange = "urban_drive_events" ∧
    eventoVerificadoEjemplo.routing_key = "reporte_verificado" ∧
    RabbitMQGamificationConsumer.EXCHANGE_NAME = "traffic.events" ∧
    RabbitMQGamificationConsumer.ROUTING_KEYS = ["reporte_creado", "reporte_validado"] ∧
    RabbitMQGamificationConsumer.queueReceives eventoVerificadoEjemplo = false ∧
    jget eventoVerificadoEjemplo.payload "type" = none ∧
    (RabbitMQGamificationConsumer.on_message RedisState.empty
        eventoVerificadoEjemplo.payload).2 =
      RabbitMQGamificationConsumer.DispatchResult.ignored ∧
    RedisGamificationClient.get_xp
      (RabbitMQGamificationConsumer.on_message RedisState.empty
        eventoVerificadoEjemplo.payload).1 7 = 0 ∧
    RedisGamificationClient.get_coins
      (RabbitMQGamificationConsumer.on_message RedisState.empty
        eventoVerificadoEjemplo.payload).1 7 = 0 ∧
    (GamificationService.process_validated_report RedisState.empty
        eventoVerificadoEjemplo.payload).2 =
      GamificationService.ProcessResult.missingUsuarioId ∧
    (RabbitMQGamificationConsumer.on_message RedisState.empty
        eventoFormaConsumidor).2 =
      RabbitMQGamificationConsumer.DispatchResult.validado
        (GamificationService.ProcessResult.rewarded 7 10 5 []) ∧
    RedisGamificationClient.get_xp
      (RabbitMQGamificationConsumer.on_message RedisState.empty
        eventoFormaConsumidor).1 7 = 10 ∧
    RedisGamificationClient.get_coins
      (RabbitMQGamificationConsumer.on_message RedisState.empty
        eventoFormaConsumidor).1 7 = 5 := by
  refine ⟨?_, rfl, rfl, rfl, rfl, rfl, rfl, rfl, rfl, rfl, rfl, rfl, rfl, rfl⟩
  rfl
